import Mathlib

/-!
Shallow embedding of the TabNet training orchestration module (`train.py`)
and verification of the specification's claims about it.

Conventions:
* Tensors of mask values are modelled as lists (rows of a 2-D tensor) or as
  functions `Nat → Nat → ℝ` with explicit dimensions, since the code only
  rearranges and reduces them elementwise.
* `torch.bernoulli` draws are factored out: a mask-generation call takes the
  realized draw matrix as an argument, together with the probability matrix
  the code passes to the sampler.  `torch.bernoulli` on a probability-1 entry
  returns 1 deterministically, which is expressed as a hypothesis where needed.
* Machine floats are modelled as exact rationals or reals; none of the claims
  settled here hinges on rounding.
-/

namespace TabNetSpec

/-! ### Container types and the `fit` type check (train.py lines 425-426)

`fit` receives `X_train, y_train, X_val=None, y_val=None` and runs
`if (type(X_train) is not type(X_val)) or (type(y_train) is not type(y_val)):
     raise ValueError(...)`.
The runtime class of each argument is one of the container types below
(`noneType` being the class of `None`). -/

inductive PyContainerType where
  | dataFrame
  | ndarray
  | series
  | noneType
deriving DecidableEq, Repr

/-- Embeds the guard on train.py lines 425-426: `True` means `fit` raises
`ValueError("Training and validation datasets should have same type")`. -/
def fitTypeCheckRaises (tX tXval tY tYval : PyContainerType) : Bool :=
  decide (tX ≠ tXval) || decide (tY ≠ tYval)

/-! ### Masking engine (`__generate_model_mask`, train.py lines 121-143)

```
mask = torch.bernoulli(torch.ones(batch_size, n_original_input_dims) * (1 - p))
idx_slices = set(categorical_config[i]["idx"] for i in categorical_config)
mask_keep_idx = []; mask_arr = []
for c_idx in range(n_original_input_dims):
    if c_idx not in idx_slices: mask_keep_idx.append(c_idx)
    else: mask_arr.append(mask[:, c_idx].unsqueeze(-1).repeat(1, embedding_dim))
return torch.cat([mask[:, mask_keep_idx]] + mask_arr, -1)
```

The function is pure data movement on the drawn matrix, so it is embedded
polymorphically in the entry type.  `catIdxs` is the list of `idx` values of
the registered categorical columns, in registration order (the order of the
`categorical_variables` configuration list, which is the insertion order of
`categorical_config`); the code reads it only through membership, matching
the `set(...)` built on line 125. -/

structure MaskConfig where
  nOriginalInputDims : ℕ
  embeddingDim : ℕ
  catIdxs : List ℕ
deriving DecidableEq, Repr

/-- The probability matrix passed to `torch.bernoulli` on lines 122-124:
`torch.ones(batch_size, n) * (1 - p)`, one entry per (row, original feature). -/
def bernoulliProbMatrix (p : ℝ) (_i _j : ℕ) : ℝ := 1 * (1 - p)

/-- `mask_keep_idx`: original column indices that are not categorical,
in ascending order (the loop over `range(n_original_input_dims)`). -/
def maskKeepIdx (cfg : MaskConfig) : List ℕ :=
  (List.range cfg.nOriginalInputDims).filter (fun c => c ∉ cfg.catIdxs)

/-- `mask_arr`: for each categorical column index (in ascending column-index
order, the order of the loop over `range(n_original_input_dims)`), the
column's single drawn value repeated `embedding_dim` times. -/
def maskBlocks {α : Type} (cfg : MaskConfig) (draw : ℕ → α) : List (List α) :=
  (List.range cfg.nOriginalInputDims).filterMap
    (fun c => if c ∈ cfg.catIdxs then some (List.replicate cfg.embeddingDim (draw c)) else none)

/-- One row of the returned mask: `torch.cat([mask[:, mask_keep_idx]] + mask_arr, -1)`
restricted to a single batch row, where `draw c` is the Bernoulli outcome for
original column `c` in that row. -/
def generateModelMaskRow {α : Type} (cfg : MaskConfig) (draw : ℕ → α) : List α :=
  (maskKeepIdx cfg).map draw ++ (maskBlocks cfg draw).flatten

/-- The full returned mask tensor, one list per batch row; `draw i c` is the
realized Bernoulli outcome at row `i`, original column `c`. -/
def generateModelMask {α : Type} (cfg : MaskConfig) (draw : ℕ → ℕ → α)
    (batchSize : ℕ) : List (List α) :=
  (List.range batchSize).map (fun i => generateModelMaskRow cfg (draw i))

/-- Mask row as the SPEC words it (§4.1): all continuous-column mask values
first, followed by each categorical block's repeated mask **in the order the
categorical columns were registered**, i.e. in the order of `catIdxs` itself.
This definition follows the spec's sentence, for comparison with
`generateModelMaskRow`, which follows the code. -/
def generateModelMaskRowSpecOrder {α : Type} (cfg : MaskConfig) (draw : ℕ → α) : List α :=
  (maskKeepIdx cfg).map draw ++
    (cfg.catIdxs.map (fun c => List.replicate cfg.embeddingDim (draw c))).flatten

/-- Expanded input width as computed in `fit` (train.py line 511):
`X_train.shape[1] + len(categorical_config) * (embedding_dim - 1)`. -/
def nInputDims (cfg : MaskConfig) : ℕ :=
  cfg.nOriginalInputDims + cfg.catIdxs.length * (cfg.embeddingDim - 1)

/-! ### Sparsity loss (train.py lines 238-248)

```
sparsity_loss = -1 * torch.stack(
    [(c_mask * torch.log(c_mask + epsilon)).sum(dim=-1).mean() for c_mask in masks]
).mean()
```

Each step's attention mask `c_mask` is a `batch × features` tensor, here a
list of rows.  `.sum(dim=-1)` sums over features, `.mean()` then averages over
the batch, and the outer `.mean()` averages over steps. -/

/-- `torch.mean` of a 1-D tensor: sum divided by length. -/
noncomputable def listMean (l : List ℝ) : ℝ := l.sum / l.length

/-- `(c_mask * torch.log(c_mask + epsilon)).sum(dim=-1).mean()` for one step
mask given as a list of batch rows. -/
noncomputable def stepEntropyTerm (epsilon : ℝ) (stepMask : List (List ℝ)) : ℝ :=
  listMean (stepMask.map (fun row => (row.map (fun v => v * Real.log (v + epsilon))).sum))

/-- The sparsity loss of one batch, from the list of per-step attention masks
(train.py lines 238-248). -/
noncomputable def sparsity_loss (epsilon : ℝ) (masks : List (List (List ℝ))) : ℝ :=
  -1 * listMean (masks.map (stepEntropyTerm epsilon))

/-- Sparsity loss as the SPEC words it (§4.2 / claim C3): "the negated mean —
first over features, then over batch rows — of `mask * log(mask + epsilon)`",
then averaged across steps.  This definition follows the spec's sentence, for
comparison with `sparsity_loss`, which follows the code. -/
noncomputable def sparsity_loss_specMeanOverFeatures (epsilon : ℝ) (masks : List (List (List ℝ))) : ℝ :=
  -1 * listMean (masks.map (fun stepMask =>
    listMean (stepMask.map (fun row => listMean (row.map (fun v => v * Real.log (v + epsilon)))))))

/-! ### Reconstruction loss (`__get_reconstruction_loss`, train.py lines 145-150)

```
std = torch.std(x.data, dim=0)
std[std == 0] = 1
return torch.norm((torch.ones_like(x) - feature_mask) * (x_reconstruction - x) / std).sum()
```

Matrices are functions `ℕ → ℕ → ℝ` with explicit dimensions `n` (batch rows)
and `d` (embedded feature columns).  `torch.std(·, dim=0)` is the unbiased
(Bessel-corrected) standard deviation of each column; `torch.norm` with no
`dim` argument is the Frobenius norm of the whole matrix, a scalar, and the
trailing `.sum()` of a scalar is the scalar itself. -/

/-- Column mean over the batch dimension. -/
noncomputable def colMean (n : ℕ) (x : ℕ → ℕ → ℝ) (j : ℕ) : ℝ :=
  (∑ i ∈ Finset.range n, x i j) / n

/-- `torch.std(x, dim=0)`: unbiased standard deviation of column `j`
(denominator `n - 1`). -/
noncomputable def colStd (n : ℕ) (x : ℕ → ℕ → ℝ) (j : ℕ) : ℝ :=
  Real.sqrt ((∑ i ∈ Finset.range n, (x i j - colMean n x j) ^ 2) / ((n : ℝ) - 1))

/-- `std[std == 0] = 1`: the divisor actually used for column `j`. -/
noncomputable def stdCorrected (n : ℕ) (x : ℕ → ℕ → ℝ) (j : ℕ) : ℝ :=
  if colStd n x j = 0 then 1 else colStd n x j

/-- The elementwise operand of `torch.norm`:
`(1 - feature_mask) * (x_reconstruction - x) / std`. -/
noncomputable def reconstructionOperand (n : ℕ) (x xrec fmask : ℕ → ℕ → ℝ) (i j : ℕ) : ℝ :=
  (1 - fmask i j) * (xrec i j - x i j) / stdCorrected n x j

/-- The reconstruction loss of one batch (train.py lines 145-150):
the Frobenius norm of the masked, scaled difference matrix. -/
noncomputable def get_reconstruction_loss (n d : ℕ) (x xrec fmask : ℕ → ℕ → ℝ) : ℝ :=
  Real.sqrt (∑ i ∈ Finset.range n, ∑ j ∈ Finset.range d,
    reconstructionOperand n x xrec fmask i j ^ 2)

/-- Reconstruction loss as the SPEC words it (§4.2 / claim C4): "take the
Euclidean norm" per row, then these row norms are "summed across the batch".
This definition follows the spec's sentence, for comparison with
`get_reconstruction_loss`, which follows the code. -/
noncomputable def reconstruction_loss_specRowNorms (n d : ℕ) (x xrec fmask : ℕ → ℕ → ℝ) : ℝ :=
  ∑ i ∈ Finset.range n, Real.sqrt (∑ j ∈ Finset.range d,
    reconstructionOperand n x xrec fmask i j ^ 2)

/-! ### Early stopping and the per-phase training loop (`__train`)

`EarlyStopping` is imported from `utils`, which is not part of the sources;
it is modelled from the spec (§4.5, §8).  The epoch-level slice of `__train`
(train.py lines 193-361) is embedded with the model weights abstracted to a
single value `w : ℚ` and the external collaborators (network, optimizer,
validation forward pass) abstracted to functions: `trainEpoch w` is the net
effect on the weights of the epoch's optimizer steps, and `critF w` is the
validation criterion computed from weights `w`. -/

/-- Modelled from the spec: the state of `utils.EarlyStopping` (not in src/):
"maintains best-seen criterion and a non-improvement counter". -/
structure ESState where
  best : Option ℚ
  numBad : ℕ
deriving DecidableEq, Repr

/-- Modelled from the spec: `utils.EarlyStopping.step` (not in src/):
"Improvement test uses a relative-percentage delta threshold against the
best-seen value; a configurable patience (consecutive non-improving validation
checks) triggers stop"; on a flat sequence it "signals stop at exactly the
`patience + 1`-th call" (§8).  Returns the new state and `should_stop`. -/
def esStep (minDeltaPct : ℚ) (patience : ℕ) (s : ESState) (c : ℚ) : ESState × Bool :=
  match s.best with
  | none => (⟨some c, 0⟩, false)
  | some b =>
    if c < b * (1 - minDeltaPct / 100) then (⟨some c, 0⟩, false)
    else (⟨some b, s.numBad + 1⟩, decide (s.numBad + 1 ≥ patience))

/-- torch semantics of the snapshot taken on train.py lines 294 / 338:
`model_max_state_dict = self.model.state_dict()`.  `state_dict()` returns
tensors that share storage with the live parameters (it does not copy), and
`optimizer.step()` updates the parameters in place; so reading the "snapshot"
at any later time yields the *current* live weights, and
`load_state_dict(model_max_state_dict)` (lines 300 / 344) copies the live
weights onto themselves.  The ghost field `snapCapturedVal` records what the
weights were at capture time — the value a deep copy would have preserved. -/
structure PhaseState where
  live : ℚ
  snapTaken : Bool
  snapCapturedVal : Option ℚ
  bestCrit : Option ℚ
  es : ESState
  stopped : Bool
deriving DecidableEq, Repr

/-- `load_state_dict` applied to a state dict whose tensors alias the live
parameters: copying each parameter's current value into itself is a no-op. -/
def loadAliasedStateDict (live : ℚ) : ℚ := live

/-- One iteration of the epoch loop of `__train` (train.py lines 199-350),
supervised branch with a validation generator.  `bestCrit = none` models the
`NaN` initialisation of `model_max_criteria` (line 195).  The capture test is
line 335-337: `criterion_val_loss == torch.min(criterion_val_loss,
model_max_criteria) or torch.isnan(model_max_criteria)` — with a `NaN` best
the `min` is `NaN` and the equality is false, but `isnan` is true; with a
finite best it holds exactly when the new criterion is `≤` the best. -/
def phaseEpoch (minDeltaPct : ℚ) (patience : ℕ) (earlyStoppingOn : Bool)
    (trainEpoch critF : ℚ → ℚ) (s : PhaseState) : PhaseState :=
  if s.stopped then s
  else
    let w := trainEpoch s.live
    let c := critF w
    let captures : Bool :=
      match s.bestCrit with
      | none => true
      | some b => decide (c ≤ b)
    let snapTaken := if captures then true else s.snapTaken
    let snapVal := if captures then some w else s.snapCapturedVal
    let best := if captures then some c else s.bestCrit
    let (es, stop) :=
      if earlyStoppingOn then esStep minDeltaPct patience s.es c else (s.es, false)
    if stop then
      { live := loadAliasedStateDict w, snapTaken := snapTaken, snapCapturedVal := snapVal,
        bestCrit := best, es := es, stopped := true }
    else
      { live := w, snapTaken := snapTaken, snapCapturedVal := snapVal,
        bestCrit := best, es := es, stopped := false }

/-- The epoch loop of one phase of `__train` with a validation generator
(train.py lines 197-361): runs up to `epochs` epochs, breaking after the
epoch in which early stopping fires.  On normal exhaustion of the epoch
budget the code performs no restore (it proceeds straight to the final
checkpoint save on line 360). -/
def runPhase (minDeltaPct : ℚ) (patience : ℕ) (earlyStoppingOn : Bool)
    (trainEpoch critF : ℚ → ℚ) (epochs : ℕ) (w0 : ℚ) : PhaseState :=
  (List.range epochs).foldl
    (fun s _ => phaseEpoch minDeltaPct patience earlyStoppingOn trainEpoch critF s)
    { live := w0, snapTaken := false, snapCapturedVal := none,
      bestCrit := none, es := ⟨none, 0⟩, stopped := false }

/-! ### Model-parameter updates performed by `fit` (train.py lines 420-462, 510-525)

Training inputs are modelled as labelled column tables (the DataFrame case);
cell values are strings (category labels).  `data_columns` (line 430) maps a
column name to its position. -/

/-- A labelled training table: column name paired with its values, in column
order. -/
structure TrainFrame where
  cols : List (String × List String)
deriving DecidableEq, Repr

/-- `X_train.shape[1]`. -/
def TrainFrame.width (X : TrainFrame) : ℕ := X.cols.length

/-- `data_columns[col]` (train.py line 430): the position of a column name. -/
def dataColumnsIdx (X : TrainFrame) (c : String) : ℕ :=
  (X.cols.map Prod.fst).indexOf c

/-- `X_train[col]`: the values of a named column. -/
def TrainFrame.colVals (X : TrainFrame) (c : String) : List String :=
  ((X.cols.find? (fun kv => kv.1 = c)).map Prod.snd).getD []

/-- The distinct values of a list, in order of first appearance. -/
def distinctInOrder : List String → List String
  | [] => []
  | v :: vs => v :: (distinctInOrder vs).filter (fun u => u ≠ v)

/-- Modelled from the spec: `generate_categorical_to_ordinal_map` (imported
from `utils`, not in src/): the §3 "mapping from category value → ordinal
index" — one ordinal per distinct value observed, here numbered in order of
first appearance. -/
def generate_categorical_to_ordinal_map (vals : List String) : List (String × ℕ) :=
  (distinctInOrder vals).enum.map (fun p => (p.2, p.1))

/-- One entry of `categorical_config` (train.py lines 456-461):
`{"map": cast_map, "n_dims": len(cast_map), "idx": data_columns[col],
"identifier": col}`. -/
structure CatEntry where
  catMap : List (String × ℕ)
  n_dims : ℕ
  idx : ℕ
  identifier : String
deriving DecidableEq, Repr

/-- The Model Parameters fields that `fit` touches (train.py lines 40-52 for
the defaults, 420-424, 447-462, 514-525 for the updates). -/
structure ModelParamsRec where
  categorical_variables : List String
  categorical_config : List (String × CatEntry)
  discrete_target_mapping : List (String × ℕ)
  discrete_outputs : Bool
  embedding_dim : ℕ
  n_input_dims : ℕ
  n_original_input_dims : ℕ
  n_continuous_input_dims : ℕ
  n_output_dims : ℕ
deriving DecidableEq, Repr

/-- train.py lines 447-462: rebuild `categorical_config` from the current
training table, iterating `categorical_variables` in registration order. -/
def buildCategoricalConfig (vars : List String) (X : TrainFrame) : List (String × CatEntry) :=
  vars.map (fun col =>
    let castMap := generate_categorical_to_ordinal_map (X.colVals col)
    (col, { catMap := castMap, n_dims := castMap.length,
            idx := dataColumnsIdx X col, identifier := col }))

/-- The net effect of one `fit` call on the Model Parameters (train.py):
* lines 420-424: `discrete_target_mapping` is recomputed only when
  `self.model is None` and `discrete_outputs`;
* lines 447-462: `categorical_config` is recomputed whenever
  `categorical_variables` is non-empty — this branch is NOT guarded by
  `self.model is None`;
* lines 510-525: the derived dimensionalities are written only when
  `self.model is None` (`n_output_dims` comes from the external
  `TrainingDataset` collaborator and is passed in here). -/
def fitUpdateModelParams (modelExists : Bool) (mp : ModelParamsRec)
    (X : TrainFrame) (yTrain : List String) (nOutputDims : ℕ) : ModelParamsRec :=
  let mp1 :=
    if ¬modelExists ∧ mp.discrete_outputs then
      { mp with discrete_target_mapping := generate_categorical_to_ordinal_map yTrain }
    else mp
  let mp2 :=
    if mp1.categorical_variables.length > 0 then
      { mp1 with categorical_config := buildCategoricalConfig mp1.categorical_variables X }
    else mp1
  if ¬modelExists then
    { mp2 with
      n_input_dims := X.width + mp2.categorical_config.length * (mp2.embedding_dim - 1),
      n_original_input_dims := X.width,
      n_continuous_input_dims := X.width - mp2.categorical_config.length,
      n_output_dims := nOutputDims }
  else mp2

/-! ### Python dictionary and class-attribute semantics for the default
parameter dictionaries (train.py lines 14-54, 56-65, 414-418, 462)

`default_train_params`, `default_save_params` and `default_model_params` are
class-level dictionary literals.  `self.model_params = self.default_model_params`
(line 64) binds the instance attribute to the very same dictionary object, and
`dict.update` / item assignment then mutate that shared object in place.  The
class state below holds the current contents of the three shared dictionaries;
an instance attribute bound to one of them is read through the class state. -/

inductive PVal where
  | pnum : ℚ → PVal
  | pbool : Bool → PVal
  | pstr : String → PVal
  | plist : List PVal → PVal
  | pdict : List (String × PVal) → PVal

abbrev PDict := List (String × PVal)

/-- Python `d[k] = v`: overwrite in place if the key exists (preserving
insertion order), else append. -/
def pdictSet (d : PDict) (k : String) (v : PVal) : PDict :=
  if d.any (fun kv => kv.1 = k) then
    d.map (fun kv => if kv.1 = k then (k, v) else kv)
  else d ++ [(k, v)]

/-- Python `d.update(ov)`: set every key of `ov` in `d`, in order. -/
def pdictUpdate (d ov : PDict) : PDict :=
  ov.foldl (fun acc kv => pdictSet acc kv.1 kv.2) d

/-- Python `d.get(k)` / `d[k]`. -/
def pdictGet (d : PDict) (k : String) : Option PVal :=
  ((d.find? (fun kv => kv.1 = k)).map Prod.snd)

/-- The class-attribute dictionary literal `TabNet.default_train_params`
(train.py lines 15-35). -/
def default_train_params_literal : PDict :=
  [("batch_size", .pnum 8192),
   ("validation_batch_size", .pnum 1024),
   ("run_self_supervised_training", .pbool false),
   ("run_supervised_training", .pbool true),
   ("early_stopping", .pbool true),
   ("early_stopping_min_delta_pct", .pnum 0),
   ("early_stopping_patience", .pnum 20),
   ("max_epochs_supervised", .pnum 500),
   ("max_epochs_self_supervised", .pnum 500),
   ("epoch_save_frequency", .pnum 100),
   ("train_generator_shuffle", .pbool true),
   ("train_generator_n_workers", .pnum 0),
   ("epsilon", .pnum (1 / 10000000)),
   ("learning_rate", .pnum (1 / 100)),
   ("learning_rate_decay_factor", .pnum (95 / 100)),
   ("learning_rate_decay_step_rate", .pnum 1000),
   ("weight_decay", .pnum (1 / 1000)),
   ("sparsity_regularization", .pnum (1 / 10000)),
   ("p_mask", .pnum (1 / 5))]

/-- The class-attribute dictionary literal `TabNet.default_save_params`
(train.py lines 36-39). -/
def default_save_params_literal : PDict :=
  [("model_name", .pstr "forest_cover"),
   ("save_folder", .pstr "../runs/model_backups/")]

/-- The class-attribute dictionary literal `TabNet.default_model_params`
(train.py lines 40-52). -/
def default_model_params_literal : PDict :=
  [("n_steps", .pnum 5),
   ("n_dims_d", .pnum 16),
   ("n_dims_a", .pnum 16),
   ("batch_norm_momentum", .pnum (85 / 100)),
   ("dropout_p", .pnum (3 / 10)),
   ("categorical_variables", .plist []),
   ("categorical_config", .pdict []),
   ("discrete_target_mapping", .pdict []),
   ("embedding_dim", .pnum 2),
   ("discrete_outputs", .pbool false),
   ("gamma", .pnum (15 / 10))]

/-- The current contents of the three shared class-level dictionaries. -/
structure TabNetClassState where
  default_train_params : PDict
  default_save_params : PDict
  default_model_params : PDict

/-- The class state as first loaded: the literals of train.py lines 15-52. -/
def initialClassState : TabNetClassState :=
  { default_train_params := default_train_params_literal,
    default_save_params := default_save_params_literal,
    default_model_params := default_model_params_literal }

/-- `TabNet.__init__` without a usable checkpoint (train.py lines 63-65):
`self.model_params = self.default_model_params` aliases the class dictionary
and `self.model_params.update(model_params)` mutates it in place. -/
def tabnetInitNoCheckpoint (cs : TabNetClassState) (model_params : PDict) : TabNetClassState :=
  { cs with default_model_params := pdictUpdate cs.default_model_params model_params }

/-- Reading `self.model_params` of any instance constructed without a
checkpoint: the attribute aliases the (possibly since-mutated) class dict. -/
def instanceModelParams (cs : TabNetClassState) : PDict := cs.default_model_params

/-- `fit` prologue (train.py lines 414-418): `self.save_params =
self.default_save_params; self.save_params.update(save_params)` and likewise
for the training parameters — both mutate the shared class dictionaries. -/
def tabnetFitMergeParams (cs : TabNetClassState) (train_params save_params : PDict) :
    TabNetClassState :=
  { cs with
    default_save_params := pdictUpdate cs.default_save_params save_params,
    default_train_params := pdictUpdate cs.default_train_params train_params }

/-- Reading `self.train_params` after `fit`'s prologue: aliases the class dict. -/
def instanceTrainParams (cs : TabNetClassState) : PDict := cs.default_train_params

/-- `fit` line 462: `self.model_params["categorical_config"] = config_dict`
writes through the alias into the shared class dictionary. -/
def tabnetFitSetCategoricalConfig (cs : TabNetClassState) (v : PVal) : TabNetClassState :=
  { cs with default_model_params := pdictSet cs.default_model_params "categorical_config" v }

/-! ## Theorems -/

/-! ### Shared helper lemmas -/

theorem filterMap_ite_eq_map_filter {α β : Type} (l : List α) (p : α → Prop)
    [DecidablePred p] (f : α → β) :
    l.filterMap (fun c => if p c then some (f c) else none) =
      (l.filter (fun c => decide (p c))).map f := by
  induction l with
  | nil => rfl
  | cons a l ih =>
    by_cases h : p a <;> simp [List.filterMap_cons, List.filter_cons, h, ih]

theorem listMean_nil : listMean [] = 0 := by
  simp [listMean]

theorem sum_eq_length_mul_listMean (l : List ℝ) : l.sum = l.length * listMean l := by
  rcases l with _ | ⟨a, l⟩
  · simp [listMean]
  · have hlen : ((a :: l).length : ℝ) ≠ 0 := by
      exact Nat.cast_ne_zero.mpr (by simp)
    rw [listMean, mul_div_cancel₀ _ hlen]

theorem listMean_map_mul_left (c : ℝ) (l : List ℝ) :
    listMean (l.map (fun v => c * v)) = c * listMean l := by
  unfold listMean
  rw [List.length_map, List.sum_map_mul_left, mul_div_assoc]
  simp

/-- C1: `fit` with the validation set omitted (`X_val=None`, `y_val=None`)
while `X_train` is a DataFrame and `y_train` a Series: the guard on
train.py lines 425-426 compares `type(X_train)` with `type(None)` and
raises the "same type" `ValueError`, so an omitted validation set is NOT
accepted — contradicting the claim that the configuration error fires only
when a validation dataset is actually supplied with a differing container
type. -/
theorem C1_omitted_validation_is_rejected :
    fitTypeCheckRaises .dataFrame .noneType .series .noneType = true := by decide

/-- C7 counterexample: with two categorical columns registered in the order
`[column 1, column 0]` (registration order opposite to column order) and the
per-column draws `0` for column 0 and `1` for column 1, `generate_mask`
returns `[[0, 0, 1, 1]]` — blocks in ascending column-index order — while the
claimed registration-order concatenation would be `[[1, 1, 0, 0]]`. -/
theorem C7_registration_order_counterexample :
    generateModelMask (MaskConfig.mk 2 2 [1, 0]) (fun _ c => (c : ℚ)) 1 ≠
      [generateModelMaskRowSpecOrder (MaskConfig.mk 2 2 [1, 0]) (fun c => (c : ℚ))] := by
  decide

/-- C7 (amended): every mask returned by `generate_mask` is the concatenation
of all continuous-column mask values first, followed by the categorical
blocks' repeated masks in ASCENDING ORIGINAL COLUMN-INDEX order — i.e. it
equals the spec's concatenation computed as if the categorical columns had
been registered sorted by their column positions. -/
theorem C7_blocks_follow_column_index_order {α : Type} (cfg : MaskConfig)
    (draw : ℕ → ℕ → α) (batchSize : ℕ) :
    generateModelMask cfg draw batchSize =
      (List.range batchSize).map (fun i =>
        generateModelMaskRowSpecOrder
          (MaskConfig.mk cfg.nOriginalInputDims cfg.embeddingDim
            ((List.range cfg.nOriginalInputDims).filter (fun c => decide (c ∈ cfg.catIdxs))))
          (draw i)) := by
  unfold generateModelMask
  refine List.map_congr_left (fun i _ => ?_)
  unfold generateModelMaskRow generateModelMaskRowSpecOrder
  congr 1
  · unfold maskKeepIdx
    refine congrArg _ (List.filter_congr (fun c hc => ?_))
    simp only [decide_eq_decide]
    simp [List.mem_filter, hc]
  · unfold maskBlocks
    rw [filterMap_ite_eq_map_filter]

/-- C9: with `p = 0`, the probability matrix handed to `torch.bernoulli` is
all ones, so every realized draw is 1 (hypothesis `hdraw`); then
`generate_mask` returns a tensor of `batchSize` rows, each of the expanded
input width `n_input_dims`, in which every entry equals 1. -/
theorem C9_p_zero_yields_all_ones (cfg : MaskConfig) (draw : ℕ → ℕ → ℚ) (batchSize : ℕ)
    (hdraw : ∀ i j, draw i j = 1)
    (hnodup : cfg.catIdxs.Nodup)
    (hbound : ∀ c ∈ cfg.catIdxs, c < cfg.nOriginalInputDims)
    (hemb : 1 ≤ cfg.embeddingDim) :
    (generateModelMask cfg draw batchSize).length = batchSize ∧
    ∀ row ∈ generateModelMask cfg draw batchSize,
      row.length = nInputDims cfg ∧ ∀ v ∈ row, v = 1 := by
  constructor
  · simp [generateModelMask]
  · intro row hrow
    rw [generateModelMask, List.mem_map] at hrow
    obtain ⟨i, _, rfl⟩ := hrow
    constructor
    · -- length of one row
      have hcatIn :
          ((List.range cfg.nOriginalInputDims).filter
              (fun c => decide (c ∈ cfg.catIdxs))).length = cfg.catIdxs.length := by
        have hperm :
            List.Perm ((List.range cfg.nOriginalInputDims).filter
                (fun c => decide (c ∈ cfg.catIdxs))) cfg.catIdxs := by
          rw [List.perm_ext_iff_of_nodup ((List.nodup_range _).filter _) hnodup]
          intro a
          simp only [List.mem_filter, List.mem_range, decide_eq_true_eq]
          exact ⟨fun h => h.2, fun h => ⟨hbound a h, h⟩⟩
        exact hperm.length_eq
      have hsplit :
          ((List.range cfg.nOriginalInputDims).filter
              (fun c => decide (c ∉ cfg.catIdxs))).length +
            ((List.range cfg.nOriginalInputDims).filter
              (fun c => decide (c ∈ cfg.catIdxs))).length = cfg.nOriginalInputDims := by
        have hp := (List.filter_append_perm
          (fun c => decide (c ∈ cfg.catIdxs)) (List.range cfg.nOriginalInputDims)).length_eq
        simp only [List.length_append, List.length_range] at hp
        have hnot : (fun c => decide (c ∉ cfg.catIdxs)) =
            (fun c => !decide (c ∈ cfg.catIdxs)) := by
          funext c; simp
        rw [hnot]
        omega
      rw [generateModelMaskRow, List.length_append, List.length_map, maskKeepIdx,
        maskBlocks, filterMap_ite_eq_map_filter, List.length_flatten, List.map_map]
      have hlens :
          ((List.range cfg.nOriginalInputDims).filter
              (fun c => decide (c ∈ cfg.catIdxs))).map
            (List.length ∘ fun c => List.replicate cfg.embeddingDim (draw i c)) =
          ((List.range cfg.nOriginalInputDims).filter
              (fun c => decide (c ∈ cfg.catIdxs))).map (fun _ => cfg.embeddingDim) := by
        refine List.map_congr_left (fun c _ => ?_)
        simp
      rw [hlens, List.map_const', List.sum_replicate, smul_eq_mul, hcatIn, nInputDims]
      rw [hcatIn] at hsplit
      obtain ⟨e, he⟩ : ∃ e, cfg.embeddingDim = e + 1 := ⟨cfg.embeddingDim - 1, by omega⟩
      rw [he, Nat.add_sub_cancel, Nat.mul_succ]
      omega
    · -- entries of one row
      intro v hv
      rw [generateModelMaskRow, List.mem_append] at hv
      rcases hv with hv | hv
      · rcases List.mem_map.mp hv with ⟨c, _, rfl⟩
        exact hdraw i c
      · rcases List.mem_flatten.mp hv with ⟨block, hb, hvb⟩
        rw [maskBlocks, filterMap_ite_eq_map_filter] at hb
        rcases List.mem_map.mp hb with ⟨c, _, rfl⟩
        rw [List.eq_of_mem_replicate hvb]
        exact hdraw i c

/-- C9 witness: a concrete configuration (three original columns, the middle
one categorical with embedding width 2) and all-ones draws over two batch
rows: the hypotheses hold and the mask is all ones of width
`n_input_dims = 4`. -/
theorem C9_p_zero_yields_all_ones_witness :
    (∀ i j : ℕ, (fun _ _ => (1 : ℚ)) i j = 1) ∧
    (MaskConfig.mk 3 2 [1]).catIdxs.Nodup ∧
    (∀ c ∈ (MaskConfig.mk 3 2 [1]).catIdxs, c < (MaskConfig.mk 3 2 [1]).nOriginalInputDims) ∧
    1 ≤ (MaskConfig.mk 3 2 [1]).embeddingDim ∧
    ((generateModelMask (MaskConfig.mk 3 2 [1]) (fun _ _ => (1 : ℚ)) 2).length = 2 ∧
      ∀ row ∈ generateModelMask (MaskConfig.mk 3 2 [1]) (fun _ _ => (1 : ℚ)) 2,
        row.length = nInputDims (MaskConfig.mk 3 2 [1]) ∧ ∀ v ∈ row, v = 1) :=
  ⟨fun _ _ => rfl, by decide, by decide, by decide,
    C9_p_zero_yields_all_ones (MaskConfig.mk 3 2 [1]) (fun _ _ => (1 : ℚ)) 2
      (fun _ _ => rfl) (by decide) (by decide) (by decide)⟩

/-- C10: each categorical block of a generated mask is the
`embedding_dim`-fold repetition of the single Bernoulli outcome drawn for
that block's original column in that row (so a block is never split), one
block per registered categorical column; and every entry of the probability
matrix handed to `torch.bernoulli` is the keep-probability `1 - p`, one
entry per (row, original pre-embedding feature). -/
theorem C10_blocks_never_split {α : Type} (cfg : MaskConfig) (draw : ℕ → ℕ → α)
    (p : ℝ) (i : ℕ) :
    (maskBlocks cfg (draw i) =
      ((List.range cfg.nOriginalInputDims).filter (fun c => decide (c ∈ cfg.catIdxs))).map
        (fun c => List.replicate cfg.embeddingDim (draw i c))) ∧
    (∀ block ∈ maskBlocks cfg (draw i), ∃ c ∈ cfg.catIdxs,
      block = List.replicate cfg.embeddingDim (draw i c)) ∧
    (∀ r j, bernoulliProbMatrix p r j = 1 - p) := by
  refine ⟨?_, ?_, ?_⟩
  · rw [maskBlocks, filterMap_ite_eq_map_filter]
  · intro block hb
    rw [maskBlocks, filterMap_ite_eq_map_filter] at hb
    rcases List.mem_map.mp hb with ⟨c, hc, rfl⟩
    exact ⟨c, of_decide_eq_true (List.mem_filter.mp hc).2, rfl⟩
  · intro r j
    simp [bernoulliProbMatrix]

theorem listMean_map_scale {β : Type} (c : ℝ) (l : List β) (g : β → ℝ) :
    listMean (l.map (fun b => c * g b)) = c * listMean (l.map g) := by
  have h : l.map (fun b => c * g b) = (l.map g).map (fun v => c * v) := by
    rw [List.map_map]
    rfl
  rw [h, listMean_map_mul_left]

/-- C3 counterexample: one step, a single batch row with the attention mask
`[1/2, 1/2]` and the default `epsilon = 1e-7`.  The code's sparsity loss
(feature-SUM, then batch mean) is `-log(1/2 + 1e-7)`, while the claimed
feature-MEAN version is `-log(1/2 + 1e-7)/2`; the two differ. -/
theorem C3_sparsity_counterexample :
    sparsity_loss (1 / 10000000) [[[1 / 2, 1 / 2]]] ≠
      sparsity_loss_specMeanOverFeatures (1 / 10000000) [[[1 / 2, 1 / 2]]] := by
  have hL : Real.log (1 / 2 + 1 / 10000000) ≠ 0 := by
    refine Real.log_ne_zero_of_pos_of_ne_one (by norm_num) (by norm_num)
  simp only [sparsity_loss, sparsity_loss_specMeanOverFeatures, stepEntropyTerm, listMean,
    List.map_cons, List.map_nil, List.sum_cons, List.sum_nil, List.length_cons,
    List.length_nil, List.length_map]
  intro h
  apply hL
  push_cast at h
  nlinarith [h]

/-- C3 (amended): per batch, the code's sparsity loss sums `mask * log(mask +
epsilon)` over FEATURES (not a feature mean), then averages over batch rows
and over steps, negated.  Hence, when every attention-mask row has `F`
features, the code's value is exactly `F` times the claim's
feature-mean version. -/
theorem C3_sparsity_is_feature_sum (epsilon : ℝ) (masks : List (List (List ℝ))) (F : ℕ)
    (hF : ∀ stepMask ∈ masks, ∀ row ∈ stepMask, row.length = F) :
    sparsity_loss epsilon masks =
      F * sparsity_loss_specMeanOverFeatures epsilon masks := by
  have hstep : ∀ m ∈ masks, stepEntropyTerm epsilon m =
      (F : ℝ) * listMean (m.map (fun row =>
        listMean (row.map (fun v => v * Real.log (v + epsilon))))) := by
    intro m hm
    unfold stepEntropyTerm
    have hrows : m.map (fun row => (row.map (fun v => v * Real.log (v + epsilon))).sum) =
        m.map (fun row => (F : ℝ) *
          listMean (row.map (fun v => v * Real.log (v + epsilon)))) := by
      refine List.map_congr_left (fun row hr => ?_)
      rw [sum_eq_length_mul_listMean, List.length_map, hF m hm row hr]
    rw [hrows, listMean_map_scale]
  unfold sparsity_loss sparsity_loss_specMeanOverFeatures
  rw [List.map_congr_left hstep, listMean_map_scale]
  ring

/-- C3 witness: the single-step, single-row mask `[1/2, 1/2]` has 2 features
in every row, and the code loss equals twice the feature-mean version there. -/
theorem C3_sparsity_is_feature_sum_witness :
    (∀ stepMask ∈ [[[(1 : ℝ) / 2, 1 / 2]]], ∀ row ∈ stepMask, row.length = 2) ∧
    sparsity_loss (1 / 10000000) [[[1 / 2, 1 / 2]]] =
      (2 : ℕ) * sparsity_loss_specMeanOverFeatures (1 / 10000000) [[[1 / 2, 1 / 2]]] :=
  ⟨by simp, C3_sparsity_is_feature_sum (1 / 10000000) [[[1 / 2, 1 / 2]]] 2 (by simp)⟩

/-- C4 counterexample: batch of two rows, two embedded features, `x = 0`
everywhere (so both per-batch standard deviations are 0 and the divisor is
the substituted 1), reconstruction the identity pattern, mask all zero (all
positions masked out).  The code's `torch.norm` is one Frobenius norm over
the whole matrix, `sqrt 2`, while the claimed per-row Euclidean norms summed
across the batch give `1 + 1 = 2`. -/
theorem C4_reconstruction_counterexample :
    get_reconstruction_loss 2 2 (fun _ _ => 0) (fun i j => if i = j then 1 else 0)
        (fun _ _ => 0) ≠
      reconstruction_loss_specRowNorms 2 2 (fun _ _ => 0) (fun i j => if i = j then 1 else 0)
        (fun _ _ => 0) := by
  have hstd : ∀ j, stdCorrected 2 (fun _ _ => (0 : ℝ)) j = 1 := by
    intro j
    have h0 : colStd 2 (fun _ _ => (0 : ℝ)) j = 0 := by
      simp [colStd, colMean]
    simp [stdCorrected, h0]
  have hop : ∀ i j, reconstructionOperand 2 (fun _ _ => (0 : ℝ))
      (fun i j => if i = j then 1 else 0) (fun _ _ => 0) i j =
        if i = j then 1 else 0 := by
    intro i j
    by_cases h : i = j <;> simp [reconstructionOperand, hstd, h]
  have hcode : get_reconstruction_loss 2 2 (fun _ _ => 0)
      (fun i j => if i = j then 1 else 0) (fun _ _ => 0) = Real.sqrt 2 := by
    unfold get_reconstruction_loss
    rw [show (∑ i ∈ Finset.range 2, ∑ j ∈ Finset.range 2,
        reconstructionOperand 2 (fun _ _ => (0 : ℝ)) (fun i j => if i = j then 1 else 0)
          (fun _ _ => 0) i j ^ 2) = 2 by
      simp only [Finset.sum_range_succ, Finset.sum_range_zero, hop]
      norm_num]
  have hspec : reconstruction_loss_specRowNorms 2 2 (fun _ _ => 0)
      (fun i j => if i = j then 1 else 0) (fun _ _ => 0) = 2 := by
    unfold reconstruction_loss_specRowNorms
    rw [show (∑ i ∈ Finset.range 2, Real.sqrt (∑ j ∈ Finset.range 2,
        reconstructionOperand 2 (fun _ _ => (0 : ℝ)) (fun i j => if i = j then 1 else 0)
          (fun _ _ => 0) i j ^ 2)) =
        Real.sqrt 1 + Real.sqrt 1 by
      simp only [Finset.sum_range_succ, Finset.sum_range_zero, hop]
      norm_num]
    rw [Real.sqrt_one]
    norm_num
  rw [hcode, hspec]
  intro h
  have h2 : Real.sqrt 2 ^ 2 = 2 := Real.sq_sqrt (by norm_num)
  rw [h] at h2
  norm_num at h2

/-- C4 (amended): the reconstruction loss is a SINGLE Euclidean (Frobenius)
norm over the entire batch matrix of masked, standard-deviation-scaled
differences (the trailing `.sum()` acts on that scalar), with only
masked-out positions (`feature_mask = 0`) contributing — not per-row norms
summed across the batch. -/
theorem C4_reconstruction_is_frobenius (n d : ℕ) (x xrec fmask : ℕ → ℕ → ℝ)
    (hmask : ∀ i j, fmask i j = 0 ∨ fmask i j = 1) :
    get_reconstruction_loss n d x xrec fmask =
      Real.sqrt (∑ i ∈ Finset.range n, ∑ j ∈ Finset.range d,
        (if fmask i j = 0 then ((xrec i j - x i j) / stdCorrected n x j) ^ 2 else 0)) := by
  unfold get_reconstruction_loss
  congr 1
  refine Finset.sum_congr rfl (fun i _ => Finset.sum_congr rfl (fun j _ => ?_))
  rcases hmask i j with h | h <;> simp [reconstructionOperand, h]

/-- C4 witness: a one-cell batch with the cell masked out; the loss equals
the Frobenius form at that input. -/
theorem C4_reconstruction_is_frobenius_witness :
    (∀ _i _j : ℕ, (0 : ℝ) = 0 ∨ (0 : ℝ) = 1) ∧
    get_reconstruction_loss 1 1 (fun _ _ => 0) (fun _ _ => 3) (fun _ _ => 0) =
      Real.sqrt (∑ i ∈ Finset.range 1, ∑ j ∈ Finset.range 1,
        (if (0 : ℝ) = 0 then (((3 : ℝ) - 0) / stdCorrected 1 (fun _ _ => 0) j) ^ 2 else 0)) :=
  ⟨fun _ _ => Or.inl rfl,
    C4_reconstruction_is_frobenius 1 1 (fun _ _ => 0) (fun _ _ => 3) (fun _ _ => 0)
      (fun _ _ => Or.inl rfl)⟩

/-- C8: when some embedded feature column has per-batch standard deviation
exactly zero, the divisor the reconstruction loss uses for that column is the
substituted 1; and for every column the divisor is nonzero, so no division by
zero occurs. -/
theorem C8_zero_std_divisor_is_one (n : ℕ) (x : ℕ → ℕ → ℝ) (j : ℕ)
    (h : colStd n x j = 0) :
    stdCorrected n x j = 1 ∧ ∀ j', stdCorrected n x j' ≠ 0 := by
  constructor
  · simp [stdCorrected, h]
  · intro j'
    unfold stdCorrected
    by_cases h0 : colStd n x j' = 0
    · simp [h0]
    · rw [if_neg h0]
      exact h0

/-- C8 witness: a constant column (`x = 5` over a batch of 2) has standard
deviation 0, and the substituted divisor is 1. -/
theorem C8_zero_std_divisor_is_one_witness :
    colStd 2 (fun _ _ => (5 : ℝ)) 0 = 0 ∧
    (stdCorrected 2 (fun _ _ => (5 : ℝ)) 0 = 1 ∧
      ∀ j', stdCorrected 2 (fun _ _ => (5 : ℝ)) j' ≠ 0) := by
  have h : colStd 2 (fun _ _ => (5 : ℝ)) 0 = 0 := by
    norm_num [colStd, colMean, Finset.sum_range_succ]
  exact ⟨h, C8_zero_std_divisor_is_one 2 (fun _ _ => (5 : ℝ)) 0 h⟩

/-- C2: a two-epoch run in which the criterion worsens after epoch 1
(weights advance by 1 per epoch, criterion equals the weights, early
stopping with zero delta and patience 1, budget 5 epochs).  Early stopping
fires at epoch 2; the claim says the live weights then equal the snapshot
captured at epoch 1 (weight value 1, recorded by the ghost field).  But
`model_max_state_dict` holds references to the live parameter tensors, which
the optimizer mutates in place, so `load_state_dict` restores nothing: the
live weights remain at the post-epoch-2 value 2 ≠ 1. -/
theorem C2_snapshot_aliased_not_restored :
    (runPhase 0 1 true (fun w => w + 1) (fun w => w) 5 0).stopped = true ∧
    (runPhase 0 1 true (fun w => w + 1) (fun w => w) 5 0).snapCapturedVal = some 1 ∧
    (runPhase 0 1 true (fun w => w + 1) (fun w => w) 5 0).live = 2 ∧
    (2 : ℚ) ≠ 1 := by
  norm_num [runPhase, phaseEpoch, esStep, loadAliasedStateDict, List.range_succ]

/-- C5 counterexample: a model exists (second `fit`), one registered
categorical column `"cat"`.  The first fit saw `"cat"` at column position 1;
the second fit's training table has it at position 0.  The unguarded rebuild
on train.py lines 447-462 overwrites `categorical_config` (here its `idx`
field changes), so the frozen Model Parameters are NOT left unchanged. -/
theorem C5_categorical_config_rewritten :
    (fitUpdateModelParams true
        (fitUpdateModelParams false
          (ModelParamsRec.mk ["cat"] [] [] false 2 0 0 0 0)
          (TrainFrame.mk [("a", ["0", "0"]), ("cat", ["u", "v"])]) ["t", "t"] 1)
        (TrainFrame.mk [("cat", ["u", "v"]), ("a", ["0", "0"])]) ["t", "t"] 1).categorical_config ≠
      (fitUpdateModelParams false
        (ModelParamsRec.mk ["cat"] [] [] false 2 0 0 0 0)
        (TrainFrame.mk [("a", ["0", "0"]), ("cat", ["u", "v"])]) ["t", "t"] 1).categorical_config := by
  decide

/-- C5 (amended): on a `fit` call when a model already exists, the target
category mapping and every derived dimensionality field are left unchanged,
and `categorical_config` too is unchanged when no categorical variables are
registered; but with registered categorical variables `categorical_config`
is recomputed from the new training data (see the counterexample). -/
theorem C5_frozen_fields_on_refit (mp : ModelParamsRec) (X : TrainFrame)
    (yTrain : List String) (nOutputDims : ℕ) :
    ((fitUpdateModelParams true mp X yTrain nOutputDims).discrete_target_mapping =
        mp.discrete_target_mapping ∧
      (fitUpdateModelParams true mp X yTrain nOutputDims).n_input_dims = mp.n_input_dims ∧
      (fitUpdateModelParams true mp X yTrain nOutputDims).n_original_input_dims =
        mp.n_original_input_dims ∧
      (fitUpdateModelParams true mp X yTrain nOutputDims).n_continuous_input_dims =
        mp.n_continuous_input_dims ∧
      (fitUpdateModelParams true mp X yTrain nOutputDims).n_output_dims = mp.n_output_dims) ∧
    (mp.categorical_variables = [] →
      fitUpdateModelParams true mp X yTrain nOutputDims = mp) := by
  constructor
  · unfold fitUpdateModelParams
    by_cases h : mp.categorical_variables.length > 0 <;> simp [h]
  · intro hvars
    unfold fitUpdateModelParams
    simp [hvars]

/-- C5 witness: with no categorical variables registered and a model already
constructed, a refit leaves the Model Parameters record unchanged. -/
theorem C5_frozen_fields_on_refit_witness :
    (((fitUpdateModelParams true (ModelParamsRec.mk [] [] [("t", 0)] true 2 4 3 2 1)
          (TrainFrame.mk [("a", ["1"])]) ["t"] 7).discrete_target_mapping = [("t", 0)] ∧
      (fitUpdateModelParams true (ModelParamsRec.mk [] [] [("t", 0)] true 2 4 3 2 1)
          (TrainFrame.mk [("a", ["1"])]) ["t"] 7).n_input_dims = 4 ∧
      (fitUpdateModelParams true (ModelParamsRec.mk [] [] [("t", 0)] true 2 4 3 2 1)
          (TrainFrame.mk [("a", ["1"])]) ["t"] 7).n_original_input_dims = 3 ∧
      (fitUpdateModelParams true (ModelParamsRec.mk [] [] [("t", 0)] true 2 4 3 2 1)
          (TrainFrame.mk [("a", ["1"])]) ["t"] 7).n_continuous_input_dims = 2 ∧
      (fitUpdateModelParams true (ModelParamsRec.mk [] [] [("t", 0)] true 2 4 3 2 1)
          (TrainFrame.mk [("a", ["1"])]) ["t"] 7).n_output_dims = 1) ∧
    ([] = ([] : List String) →
      fitUpdateModelParams true (ModelParamsRec.mk [] [] [("t", 0)] true 2 4 3 2 1)
          (TrainFrame.mk [("a", ["1"])]) ["t"] 7 =
        ModelParamsRec.mk [] [] [("t", 0)] true 2 4 3 2 1)) :=
  C5_frozen_fields_on_refit (ModelParamsRec.mk [] [] [("t", 0)] true 2 4 3 2 1)
    (TrainFrame.mk [("a", ["1"])]) ["t"] 7

/-- C6: constructing a `TabNet` with `model_params` overrides, and `fit`'s
parameter merging, mutate the shared class-level default dictionaries in
place; a second instance created afterwards (with no overrides) reads the
first instance's `n_steps` override, the fit-derived `categorical_config`,
and the first fit's `batch_size` override as its own defaults — which differ
from the literal class defaults (`n_steps` 5 vs 3). -/
theorem C6_class_level_defaults_shared :
    pdictGet (instanceModelParams (tabnetInitNoCheckpoint
        (tabnetFitSetCategoricalConfig
          (tabnetFitMergeParams
            (tabnetInitNoCheckpoint initialClassState [("n_steps", .pnum 3)])
            [("batch_size", .pnum 64)] [])
          (.pdict [("color", .pnum 0)]))
        [])) "n_steps" = some (.pnum 3) ∧
    pdictGet (instanceModelParams (tabnetInitNoCheckpoint
        (tabnetFitSetCategoricalConfig
          (tabnetFitMergeParams
            (tabnetInitNoCheckpoint initialClassState [("n_steps", .pnum 3)])
            [("batch_size", .pnum 64)] [])
          (.pdict [("color", .pnum 0)]))
        [])) "categorical_config" = some (.pdict [("color", .pnum 0)]) ∧
    pdictGet (instanceTrainParams (tabnetFitMergeParams (tabnetInitNoCheckpoint
        (tabnetFitSetCategoricalConfig
          (tabnetFitMergeParams
            (tabnetInitNoCheckpoint initialClassState [("n_steps", .pnum 3)])
            [("batch_size", .pnum 64)] [])
          (.pdict [("color", .pnum 0)]))
        []) [] [])) "batch_size" = some (.pnum 64) ∧
    pdictGet default_model_params_literal "n_steps" = some (.pnum 5) ∧
    PVal.pnum 3 ≠ PVal.pnum 5 := by
  refine ⟨rfl, rfl, rfl, rfl, ?_⟩
  intro h
  have h3 : (3 : ℚ) = 5 := PVal.pnum.inj h
  norm_num at h3

end TabNetSpec
